import Mathlib

/-!
Verification development for the Breedingo payment backend.

The repository exposes two parallel implementations of a payment-order
facade over the Razorpay gateway:

* an Express server (`src/server.ts`) with routes `POST /api/create-order`
  and `POST /api/verify-payment`, plus `GET /health` and a 404 fallback;
* Vercel serverless handlers (`api/create-order.ts`, `api/verify-payment.ts`,
  `api/index.ts`) that additionally handle CORS preflight (OPTIONS) and
  reject non-POST methods with 405.

This file embeds both request handlers shallowly: the gateway is a record of
response functions (`Except` models a thrown transport error), handlers are
pure functions from a request and gateway state to a response together with
the list of gateway calls they issued, and Node's `crypto` HMAC-SHA256 and
`timingSafeEqual` are embedded as executable Lean functions over byte lists
(`Nat` values below 256, with explicit wraparound at 2^32 inside SHA-256).

JavaScript numeric amounts are modelled by `JsNum`: absent (`undefined`),
non-numeric (`NaN`), or an integer-valued IEEE-754 double given by its exact
integer value. The multiplication `amount * 100` is embedded with IEEE-754
round-to-nearest-even semantics (`roundDouble`), so products above 2^53 round
exactly as the source's double arithmetic does; fractional amounts and
products at the double overflow threshold (2^1024) are outside the model.
-/

/-! ## Bytes and 32-bit words -/

/-- Truncate to a 32-bit word, the wraparound SHA-256 arithmetic uses. -/
def w32 (x : Nat) : Nat := x % 4294967296

/-- Right rotation of a 32-bit word by `n` bits. -/
def rotr32 (n x : Nat) : Nat := w32 ((x >>> n) ||| (x <<< (32 - n)))

/-- SHA-256 schedule sigma 0: rotations by 7 and 18 xored with shift by 3. -/
def schedS0 (x : Nat) : Nat := rotr32 7 x ^^^ rotr32 18 x ^^^ (x >>> 3)

/-- SHA-256 schedule sigma 1: rotations by 17 and 19 xored with shift by 10. -/
def schedS1 (x : Nat) : Nat := rotr32 17 x ^^^ rotr32 19 x ^^^ (x >>> 10)

/-- SHA-256 compression Sigma 0: rotations by 2, 13 and 22, xored. -/
def comprS0 (x : Nat) : Nat := rotr32 2 x ^^^ rotr32 13 x ^^^ rotr32 22 x

/-- SHA-256 compression Sigma 1: rotations by 6, 11 and 25, xored. -/
def comprS1 (x : Nat) : Nat := rotr32 6 x ^^^ rotr32 11 x ^^^ rotr32 25 x

/-- SHA-256 choice function; the complement is a xor with the all-ones word. -/
def chooseF (x y z : Nat) : Nat := (x &&& y) ^^^ ((x ^^^ 4294967295) &&& z)

/-- SHA-256 majority function. -/
def majorF (x y z : Nat) : Nat :=
  ((x &&& y) ^^^ (x &&& z)) ^^^ (y &&& z)

/-- The 64 SHA-256 round constants of FIPS 180-4, in decimal. -/
def K256 : List Nat :=
  [1116352408, 1899447441, 3049323471, 3921009573, 961987163, 1508970993,
   2453635748, 2870763221, 3624381080, 310598401, 607225278, 1426881987,
   1925078388, 2162078206, 2614888103, 3248222580, 3835390401, 4022224774,
   264347078, 604807628, 770255983, 1249150122, 1555081692, 1996064986,
   2554220882, 2821834349, 2952996808, 3210313671, 3336571891, 3584528711,
   113926993, 338241895, 666307205, 773529912, 1294757372, 1396182291,
   1695183700, 1986661051, 2177026350, 2456956037, 2730485921, 2820302411,
   3259730800, 3345764771, 3516065817, 3600352804, 4094571909, 275423344,
   430227734, 506948616, 659060556, 883997877, 958139571, 1322822218,
   1537002063, 1747873779, 1955562222, 2024104815, 2227730452, 2361852424,
   2428436474, 2756734187, 3204031479, 3329325298]

/-- Working state of the SHA-256 compression function: eight 32-bit words. -/
structure H8 where
  a : Nat
  b : Nat
  c : Nat
  d : Nat
  e : Nat
  f : Nat
  g : Nat
  h : Nat
deriving DecidableEq

/-- Initial SHA-256 hash value, in decimal. -/
def initH : H8 :=
  ⟨1779033703, 3144134277, 1013904242, 2773480762,
   1359893119, 2600822924, 528734635, 1541459225⟩

/-- Big-endian bytes of a 64-bit message-bit-length field. -/
def be64 (n : Nat) : List Nat :=
  [(n >>> 56) &&& 255, (n >>> 48) &&& 255, (n >>> 40) &&& 255, (n >>> 32) &&& 255,
   (n >>> 24) &&& 255, (n >>> 16) &&& 255, (n >>> 8) &&& 255, n &&& 255]

/-- Big-endian bytes of a 32-bit word. -/
def be32 (n : Nat) : List Nat :=
  [(n >>> 24) &&& 255, (n >>> 16) &&& 255, (n >>> 8) &&& 255, n &&& 255]

/-- SHA-256 padding: append 0x80, zero-fill to 56 mod 64, append the bit length. -/
def padMessage (msg : List Nat) : List Nat :=
  let len := msg.length
  let zeros := (120 - ((len + 1) % 64)) % 64
  msg ++ [0x80] ++ List.replicate zeros 0 ++ be64 (len * 8)

/-- Group four big-endian bytes at a time into 32-bit words. -/
def bytesToWords : List Nat → List Nat
  | a :: b :: c :: d :: rest =>
      ((((a <<< 8) ||| b) <<< 8 ||| c) <<< 8 ||| d) :: bytesToWords rest
  | _ => []

/-- Extend the 16 block words by `fuel` further schedule words. -/
def extendWords : Nat → List Nat → List Nat
  | 0, ws => ws
  | fuel + 1, ws =>
      let i := ws.length
      let w := w32 (schedS1 (ws.getD (i - 2) 0) + ws.getD (i - 7) 0 +
                    schedS0 (ws.getD (i - 15) 0) + ws.getD (i - 16) 0)
      extendWords fuel (ws ++ [w])

/-- The 64-word message schedule of one block. -/
def messageSchedule (ws : List Nat) : List Nat := extendWords 48 ws

/-- One SHA-256 round on the working state, for one (constant, schedule) pair. -/
def roundStep (st : H8) (kw : Nat × Nat) : H8 :=
  let t1 := w32 (st.h + comprS1 st.e + chooseF st.e st.f st.g + kw.1 + kw.2)
  let t2 := w32 (comprS0 st.a + majorF st.a st.b st.c)
  ⟨w32 (t1 + t2), st.a, st.b, st.c, w32 (st.d + t1), st.e, st.f, st.g⟩

/-- Compress one 64-byte block into the running hash value. -/
def compressBlock (h0 : H8) (block : List Nat) : H8 :=
  let ws := messageSchedule (bytesToWords block)
  let st := (K256.zip ws).foldl roundStep h0
  ⟨w32 (h0.a + st.a), w32 (h0.b + st.b), w32 (h0.c + st.c), w32 (h0.d + st.d),
   w32 (h0.e + st.e), w32 (h0.f + st.f), w32 (h0.g + st.g), w32 (h0.h + st.h)⟩

/-- Split a padded message into 64-byte blocks; the fuel is the list length, so
the recursion is structural and kernel-reducible. -/
def chunksAux : Nat → List Nat → List (List Nat)
  | 0, _ => []
  | _, [] => []
  | fuel + 1, l => l.take 64 :: chunksAux fuel (l.drop 64)

/-- The 64-byte blocks of a padded message. -/
def chunks64 (l : List Nat) : List (List Nat) := chunksAux l.length l

/-- SHA-256 digest of a byte list, as 32 bytes. -/
def sha256 (msg : List Nat) : List Nat :=
  let hf := (chunks64 (padMessage msg)).foldl compressBlock initH
  be32 hf.a ++ be32 hf.b ++ be32 hf.c ++ be32 hf.d ++
  be32 hf.e ++ be32 hf.f ++ be32 hf.g ++ be32 hf.h

/-- HMAC-SHA256 of a message under a key, both byte lists (block size 64). -/
def hmacSha256 (key msg : List Nat) : List Nat :=
  let k0 := if 64 < key.length then sha256 key else key
  let kp := k0 ++ List.replicate (64 - k0.length) 0
  let ip := kp.map (fun b => b ^^^ 0x36)
  let op := kp.map (fun b => b ^^^ 0x5c)
  sha256 (op ++ sha256 (ip ++ msg))

/-- UTF-8 encoding of one character, as Node's Buffer.from produces it. -/
def utf8Char (c : Char) : List Nat :=
  let n := c.toNat
  if n < 0x80 then [n]
  else if n < 0x800 then
    [0xc0 ||| (n >>> 6), 0x80 ||| (n &&& 0x3f)]
  else if n < 0x10000 then
    [0xe0 ||| (n >>> 12), 0x80 ||| ((n >>> 6) &&& 0x3f), 0x80 ||| (n &&& 0x3f)]
  else
    [0xf0 ||| (n >>> 18), 0x80 ||| ((n >>> 12) &&& 0x3f),
     0x80 ||| ((n >>> 6) &&& 0x3f), 0x80 ||| (n &&& 0x3f)]

/-- UTF-8 bytes of a string. -/
def utf8Bytes (s : String) : List Nat :=
  s.data.foldr (fun c acc => utf8Char c ++ acc) []

/-- Lowercase hexadecimal digit for a nibble. -/
def hexDigitChar : Nat → Char
  | 0 => '0' | 1 => '1' | 2 => '2' | 3 => '3'
  | 4 => '4' | 5 => '5' | 6 => '6' | 7 => '7'
  | 8 => '8' | 9 => '9' | 10 => 'a' | 11 => 'b'
  | 12 => 'c' | 13 => 'd' | 14 => 'e' | _ => 'f'

/-- The two lowercase hex characters of one byte. -/
def byteHex (b : Nat) : List Char :=
  [hexDigitChar ((b >>> 4) &&& 15), hexDigitChar (b &&& 15)]

/-- Lowercase hexadecimal rendering of a byte list, as digest produces. -/
def toHex (bs : List Nat) : String :=
  String.mk (bs.foldr (fun b acc => byteHex b ++ acc) [])

set_option maxRecDepth 100000

/-- Known-answer check: SHA-256 of "abc" (FIPS 180-2 test vector). -/
example : toHex (sha256 (utf8Bytes "abc")) =
    "ba7816bf8f01cfea414140de5dae2223b00361a396177a9cb410ff61f20015ad" := by decide

/-- Known-answer check: HMAC-SHA256 test case 2 of RFC 4231. -/
example : toHex (hmacSha256 (utf8Bytes "Jefe") (utf8Bytes "what do ya want for nothing?")) =
    "5bdcc146bf60754e6a042426089575c75a003f089d2739839dec58b964ec3843" := by decide

/-! ## Node crypto calls used by the handlers -/

/-- The expected signature both verify-payment handlers compute:
HMAC-SHA256 of the pipe-delimited string over the shared secret,
rendered as a hex digest (crypto.createHmac ... .update ... .digest). -/
def generatedSignature (secret orderId paymentId : String) : String :=
  toHex (hmacSha256 (utf8Bytes secret) (utf8Bytes (orderId ++ "|" ++ paymentId)))

/-- Node's crypto.timingSafeEqual on two buffers: it throws a RangeError when
the byte lengths differ, and otherwise reports byte equality. The error value
carries the message of the exception Node raises. -/
def timingSafeEqual (a b : List Nat) : Except String Bool :=
  if a.length = b.length then Except.ok (a == b)
  else Except.error "Input buffers must have the same byte length"

/-! ## Data model and gateway interface -/

deriving instance DecidableEq for Except

/-- A Razorpay order record, as the handlers read it back from the gateway. -/
structure Order where
  id : String
  amount : Int
  currency : String
  receipt : String
  status : String
deriving DecidableEq

/-- A Razorpay payment record, as the verify handlers fetch it. -/
structure Payment where
  id : String
  order_id : String
  amount : Int
  currency : String
  status : String
  method : String
  created_at : Int
deriving DecidableEq

/-- A JavaScript numeric request field: absent (undefined), non-numeric
(NaN after coercion), or an integer-valued IEEE-754 double denoted by its
exact integer value (every integer-valued double has one, and every such
value has at most 53 significant bits). Fractional values are outside this
model. -/
inductive JsNum where
  | undef
  | nan
  | int (i : Int)
deriving DecidableEq

/-- JavaScript truthiness of a numeric field: undefined, NaN and 0 are falsy. -/
def jsTruthy : JsNum → Bool
  | .undef => false
  | .nan => false
  | .int i => i != 0

/-- The JavaScript comparison `amount < 1`: false for undefined and NaN
(NaN comparisons are false), and the integer comparison otherwise. -/
def jsLtOne : JsNum → Bool
  | .undef => false
  | .nan => false
  | .int i => i < 1

/-- The bits a magnitude carries beyond a 53-bit significand: the number of
halvings needed to fall below 2^53. The fuel (1100 at every use) bounds the
recursion and covers every magnitude below the double overflow threshold. -/
def excessBits : Nat → Nat → Nat
  | 0, _ => 0
  | fuel + 1, n => if n < 9007199254740992 then 0 else excessBits fuel (n / 2) + 1

/-- Round a nonnegative integer to the nearest IEEE-754 double
(round-to-nearest, ties to even), as a 53-bit significand times a power of
two. Magnitudes below 2^53 are exact; the model covers magnitudes below the
double overflow threshold 2^1024. Validated against double arithmetic on the
boundary cases 2^53 ± 1 and 2^54 - 1 below. -/
def roundDouble (n : Nat) : Nat :=
  if n < 9007199254740992 then n
  else
    let k := excessBits 1100 n
    let q := n >>> k
    let r := n - (q <<< k)
    let half := 2 ^ (k - 1)
    let q2 := if half < r then q + 1
      else if r < half then q
      else if q % 2 = 0 then q else q + 1
    q2 <<< k

/-- Rounding at the 2^53 boundary behaves as double arithmetic does: 2^53 + 1
ties down to even, 2^53 + 3 ties up to even, 2^54 - 1 rounds up with carry. -/
example : roundDouble 9007199254740993 = 9007199254740992 ∧
    roundDouble 9007199254740995 = 9007199254740996 ∧
    roundDouble 18014398509481983 = 18014398509481984 := by decide

/-- JavaScript `amount * 100`: NaN-propagating, and the product of the two
doubles, which is the exact integer product rounded to the nearest double. -/
def jsMul100 : JsNum → JsNum
  | .undef => .nan
  | .nan => .nan
  | .int i =>
      .int (if i < 0 then -(roundDouble (i.natAbs * 100) : Int)
        else (roundDouble (i.natAbs * 100) : Int))

/-- JavaScript truthiness of an optional string field: absent and "" are falsy. -/
def strTruthy : Option String → Bool
  | none => false
  | some s => !s.isEmpty

/-- One outbound Razorpay API call, as the handlers issue them. -/
inductive GatewayCall where
  | createOrder (amount : JsNum) (currency : String) (receipt : String) (payment_capture : Nat)
  | fetchOrder (id : String)
  | fetchPayment (id : String)
deriving DecidableEq

/-- Whether a gateway call is a read (fetch), as opposed to a record creation. -/
def GatewayCall.isRead : GatewayCall → Bool
  | .createOrder _ _ _ _ => false
  | .fetchOrder _ => true
  | .fetchPayment _ => true

/-- The external Razorpay client: each operation either returns a record or
throws a transport/gateway error carrying a message (the Except error). -/
structure Gateway where
  createOrder : JsNum → String → String → Nat → Except String Order
  orders : String → Except String Order
  payments : String → Except String Payment

/-- A handler outcome: HTTP status, response body, and the gateway calls the
handler issued, in order. Handlers are pure: no other state is read or
written, so the calls list is the entire effect of a request. -/
structure HResult (B : Type) where
  status : Nat
  body : B
  calls : List GatewayCall
deriving DecidableEq

/-! ## Response bodies

Each constructor mirrors one res.json literal in the source, carrying the
data that response exposes to the caller. -/

/-- Response bodies of the two create-order handlers. -/
inductive CreateBody where
  | optionsOk
  | methodNotAllowed
  | invalidAmount
  | created (id : String) (amount : Int) (currency receipt status : String)
  | createdApi (id : String) (amount : Int) (currency receipt status keyId : String)
  | createFailed (message : String)
deriving DecidableEq

/-- Response bodies of the two verify-payment handlers. The api handler's
invalid-signature body carries the debug block the source includes; the
internalError body carries the caught exception's message, which the catch
blocks place in the response. -/
inductive VerifyBody where
  | optionsOk
  | methodNotAllowed
  | paymentFailed (details : String)
  | missingOrderId
  | missingPaymentId
  | missingSignature
  | missingFields
  | invalidSignature
  | invalidSignatureDebug (orderId : String) (orderAmount : Int) (orderStatus : String)
      (signatureString generatedSig receivedSig : String)
  | notCaptured (status orderId : String) (orderAmount : Int)
      (paymentId : String) (paymentAmount : Int)
  | notCapturedServer (status : String)
  | amountMismatch (orderAmount paymentAmount : Int)
  | verifiedApi (orderId : String) (orderAmount : Int) (orderCurrency orderReceipt : String)
      (paymentId : String) (paymentAmount : Int) (paymentCurrency paymentStatus paymentMethod : String)
  | verifiedServer (paymentId orderId : String) (amount : Int) (status : String)
  | internalError (message : String)
deriving DecidableEq

/-! ## The four request handlers -/

/-- The Express POST /api/create-order handler (src/server.ts). `now` is the
Date.now() value the receipt string is derived from. -/
def serverCreateOrder (gw : Gateway) (now : Nat) (amount : JsNum)
    (currency : Option String) : HResult CreateBody :=
  if !(jsTruthy amount) || jsLtOne amount then
    ⟨400, .invalidAmount, []⟩
  else
    let cur := currency.getD "INR"
    let receipt := "order_rcpt_" ++ toString now
    let amt := jsMul100 amount
    match gw.createOrder amt cur receipt 1 with
    | .ok o => ⟨200, .created o.id o.amount o.currency o.receipt o.status,
        [.createOrder amt cur receipt 1]⟩
    | .error msg => ⟨500, .createFailed msg, [.createOrder amt cur receipt 1]⟩

/-- The Vercel api/create-order.ts handler: CORS preflight and method check,
then the same validation and gateway call, with a caller-suppliable receipt
and the key id echoed on success. The notes field the source forwards is not
modelled; no claim concerns it. -/
def apiCreateOrder (gw : Gateway) (now : Nat) (keyId : String) (method : String)
    (amount : JsNum) (currency receipt : Option String) : HResult CreateBody :=
  if method = "OPTIONS" then ⟨200, .optionsOk, []⟩
  else if method ≠ "POST" then ⟨405, .methodNotAllowed, []⟩
  else if !(jsTruthy amount) || jsLtOne amount then
    ⟨400, .invalidAmount, []⟩
  else
    let cur := currency.getD "INR"
    let rcpt := if strTruthy receipt then receipt.getD "" else "order_rcpt_" ++ toString now
    let amt := jsMul100 amount
    match gw.createOrder amt cur rcpt 1 with
    | .ok o => ⟨200, .createdApi o.id o.amount o.currency o.receipt o.status keyId,
        [.createOrder amt cur rcpt 1]⟩
    | .error msg => ⟨500, .createFailed msg, [.createOrder amt cur rcpt 1]⟩

/-- A verify-payment request body. Fields are optional strings (absent or
present); `error` is the checkout widget's error object, `none` when absent
or falsy, `some d` when present and truthy with payload `d`. -/
structure VerifyRequest where
  razorpay_order_id : Option String
  razorpay_payment_id : Option String
  razorpay_signature : Option String
  error : Option String
deriving DecidableEq

/-- The Express POST /api/verify-payment handler (src/server.ts): field
presence, HMAC derivation, timingSafeEqual (whose length mismatch throws into
the catch block), then one payment fetch and the status check. It never
fetches the order and never compares amounts. -/
def serverVerifyPayment (secret : String) (gw : Gateway)
    (req : VerifyRequest) : HResult VerifyBody :=
  if !(strTruthy req.razorpay_order_id) || !(strTruthy req.razorpay_payment_id)
      || !(strTruthy req.razorpay_signature) then
    ⟨400, .missingFields, []⟩
  else
    let oid := req.razorpay_order_id.getD ""
    let pid := req.razorpay_payment_id.getD ""
    let sig := req.razorpay_signature.getD ""
    let generated := generatedSignature secret oid pid
    match timingSafeEqual (utf8Bytes generated) (utf8Bytes sig) with
    | .error msg => ⟨500, .internalError msg, []⟩
    | .ok isValid =>
      if isValid then
        match gw.payments pid with
        | .error msg => ⟨500, .internalError msg, [.fetchPayment pid]⟩
        | .ok p =>
          if p.status ≠ "captured" then
            ⟨400, .notCapturedServer p.status, [.fetchPayment pid]⟩
          else
            ⟨200, .verifiedServer p.id p.order_id p.amount p.status, [.fetchPayment pid]⟩
      else
        ⟨400, .invalidSignature, []⟩

/-- The Vercel api/verify-payment.ts handler: CORS preflight and method
check, the checkout-error short-circuit, per-field presence checks, an order
fetch before the signature is even computed, HMAC derivation, timingSafeEqual
(length mismatch throws into the catch block), the invalid-signature response
with its debug block, then the payment fetch, status check and amount
reconciliation. -/
def apiVerifyPayment (secret : String) (gw : Gateway) (method : String)
    (req : VerifyRequest) : HResult VerifyBody :=
  if method = "OPTIONS" then ⟨200, .optionsOk, []⟩
  else if method ≠ "POST" then ⟨405, .methodNotAllowed, []⟩
  else
    match req.error with
    | some details => ⟨400, .paymentFailed details, []⟩
    | none =>
      if !(strTruthy req.razorpay_order_id) then ⟨400, .missingOrderId, []⟩
      else if !(strTruthy req.razorpay_payment_id) then ⟨400, .missingPaymentId, []⟩
      else if !(strTruthy req.razorpay_signature) then ⟨400, .missingSignature, []⟩
      else
        let oid := req.razorpay_order_id.getD ""
        let pid := req.razorpay_payment_id.getD ""
        let sig := req.razorpay_signature.getD ""
        match gw.orders oid with
        | .error msg => ⟨500, .internalError msg, [.fetchOrder oid]⟩
        | .ok orderDetails =>
          let signatureString := oid ++ "|" ++ pid
          let generated := generatedSignature secret oid pid
          match timingSafeEqual (utf8Bytes generated) (utf8Bytes sig) with
          | .error msg => ⟨500, .internalError msg, [.fetchOrder oid]⟩
          | .ok isValid =>
            if isValid then
              match gw.payments pid with
              | .error msg => ⟨500, .internalError msg, [.fetchOrder oid, .fetchPayment pid]⟩
              | .ok p =>
                if p.status ≠ "captured" then
                  ⟨400, .notCaptured p.status orderDetails.id orderDetails.amount p.id p.amount,
                    [.fetchOrder oid, .fetchPayment pid]⟩
                else if p.amount ≠ orderDetails.amount then
                  ⟨400, .amountMismatch orderDetails.amount p.amount,
                    [.fetchOrder oid, .fetchPayment pid]⟩
                else
                  ⟨200, .verifiedApi orderDetails.id orderDetails.amount orderDetails.currency
                      orderDetails.receipt p.id p.amount p.currency p.status p.method,
                    [.fetchOrder oid, .fetchPayment pid]⟩
            else
              ⟨400, .invalidSignatureDebug orderDetails.id orderDetails.amount
                  orderDetails.status signatureString generated sig,
                [.fetchOrder oid]⟩

/-- The body of a response from the Express app, tagged by which route or
middleware produced it. -/
inductive ServerBody where
  | corsPreflight
  | healthOk
  | notFound
  | fromCreate (b : CreateBody)
  | fromVerify (b : VerifyBody)
deriving DecidableEq

/-- The Express app (src/server.ts): the app.use(cors()) middleware runs
before routing and, with its defaults, answers every OPTIONS request 204 and
ends it; then GET /health, the two POST routes, and the catch-all 404
middleware. A route registered with app.post matches only the POST method,
so any non-OPTIONS, non-POST request on those paths falls through to the
404 handler. -/
def serverApp (secret : String) (gw : Gateway) (now : Nat) (method path : String)
    (amount : JsNum) (currency : Option String) (vreq : VerifyRequest) :
    HResult ServerBody :=
  if method = "OPTIONS" then ⟨204, .corsPreflight, []⟩
  else if method = "GET" ∧ path = "/health" then ⟨200, .healthOk, []⟩
  else if method = "POST" ∧ path = "/api/create-order" then
    let r := serverCreateOrder gw now amount currency
    ⟨r.status, .fromCreate r.body, r.calls⟩
  else if method = "POST" ∧ path = "/api/verify-payment" then
    let r := serverVerifyPayment secret gw vreq
    ⟨r.status, .fromVerify r.body, r.calls⟩
  else ⟨404, .notFound, []⟩

/-- The generated signature a response body exposes through the api handler's
invalid-signature debug block, when it exposes one. -/
def debugLeakedSignature : VerifyBody → Option String
  | .invalidSignatureDebug _ _ _ _ g _ => some g
  | _ => none

/-- Whether a character is a lowercase hexadecimal digit. -/
def isLowerHexChar (c : Char) : Bool := "0123456789abcdef".toList.contains c

/-! ## Concrete fixtures for witnesses and counterexamples

The shared secret is "secret123"; the HMAC-SHA256 hex digest of
"order_1|pay_1" under it is the sigOK constant below (checked by kernel
evaluation in sigOK_correct). -/

/-- The valid signature for order_1 and pay_1 under the secret "secret123". -/
def sigOK : String := "324446927ee3a3234365b3f60f2442d17396da0e6e1872eecdb0ab3ab5e26ebf"

/-- A wrong signature of the correct length (64 characters). -/
def sigZeros : String :=
  "0000000000000000000000000000000000000000000000000000000000000000"

/-- The fixture order: amount 100 paise. -/
def orderFix : Order := ⟨"order_1", 100, "INR", "rcpt_1", "created"⟩

/-- The fixture payment: captured, amount matching the order. -/
def paymentFix : Payment := ⟨"pay_1", "order_1", 100, "INR", "captured", "card", 1700000000⟩

/-- A captured payment whose amount (50) differs from the order amount (100). -/
def payMismatch : Payment := ⟨"pay_1", "order_1", 50, "INR", "captured", "card", 1700000000⟩

/-- A gateway holding the fixture order and the matching captured payment. -/
def gwGood : Gateway :=
  ⟨fun _ _ _ _ => Except.error "unused",
   fun oid => if oid = "order_1" then Except.ok orderFix else Except.error "order not found",
   fun pid => if pid = "pay_1" then Except.ok paymentFix else Except.error "payment not found"⟩

/-- A gateway whose captured payment amount disagrees with the order amount. -/
def gwMismatch : Gateway :=
  ⟨fun _ _ _ _ => Except.error "unused",
   fun oid => if oid = "order_1" then Except.ok orderFix else Except.error "order not found",
   fun pid => if pid = "pay_1" then Except.ok payMismatch else Except.error "payment not found"⟩

/-- A gateway whose every call throws a transport error. -/
def gwDown : Gateway :=
  ⟨fun _ _ _ _ => Except.error "connect ECONNREFUSED 127.0.0.1:443",
   fun _ => Except.error "connect ECONNREFUSED 127.0.0.1:443",
   fun _ => Except.error "connect ECONNREFUSED 127.0.0.1:443"⟩

/-- A verification request with all three fields present and a valid signature. -/
def reqGood : VerifyRequest := ⟨some "order_1", some "pay_1", some sigOK, none⟩

/-- The same request with a signature of a different length (3 bytes). -/
def reqShortSig : VerifyRequest := ⟨some "order_1", some "pay_1", some "abc", none⟩

/-- The same request with a wrong signature of the correct length. -/
def reqWrongSig : VerifyRequest := ⟨some "order_1", some "pay_1", some sigZeros, none⟩

/-- A request carrying a truthy checkout error alongside valid identifiers
and the valid signature. -/
def reqWithError : VerifyRequest := ⟨some "order_1", some "pay_1", some sigOK, some "payment cancelled"⟩

/-- The fixture signature is exactly the recomputed HMAC digest. -/
theorem sigOK_correct : sigOK = generatedSignature "secret123" "order_1" "pay_1" := by decide

/-! ## Claim C2 -/

/-- C2: the claim says a length-differing signature pair fails as an
invalid-signature rejection without throwing. In the code, timingSafeEqual
throws on length mismatch, the catch block turns the throw into a 500
internal error carrying the exception message, and in the api handler the
order fetch has already been issued. Evaluated at the concrete failing input
reqShortSig (a 3-byte signature against the 64-byte digest). -/
theorem C2_code_bug_eval :
    apiVerifyPayment "secret123" gwGood "POST" reqShortSig =
      ⟨500, .internalError "Input buffers must have the same byte length",
        [.fetchOrder "order_1"]⟩ ∧
    serverVerifyPayment "secret123" gwGood reqShortSig =
      ⟨500, .internalError "Input buffers must have the same byte length", []⟩ := by
  constructor
  · decide
  · decide

/-! ## Claim C3 -/

/-- C3: the claim says an invalid-signature rejection never reveals the
recomputed expected signature, and gateway errors surface as a generic
message without internal exception detail. In the code, the api handler's
invalid-signature response carries a debug block containing exactly the
recomputed signature, and the catch block copies the caught exception's
message into the response. Both leaks, evaluated at concrete inputs. -/
theorem C3_code_bug_eval :
    debugLeakedSignature (apiVerifyPayment "secret123" gwGood "POST" reqWrongSig).body =
      some (generatedSignature "secret123" "order_1" "pay_1") ∧
    apiVerifyPayment "secret123" gwDown "POST" reqGood =
      ⟨500, .internalError "connect ECONNREFUSED 127.0.0.1:443", [.fetchOrder "order_1"]⟩ := by
  constructor
  · decide
  · decide

/-! ## Claim C4 -/

/-- C4 counterexample: the claim says an attempt failing the signature
comparison is rejected before any gateway fetch. At a concrete input whose
signature comparison fails (correct length, wrong value), the api handler
has already issued an order fetch: its call list is nonempty. -/
theorem C4_claim_counterexample :
    (apiVerifyPayment "secret123" gwGood "POST" reqWrongSig).status = 400 ∧
    debugLeakedSignature (apiVerifyPayment "secret123" gwGood "POST" reqWrongSig).body ≠ none ∧
    (apiVerifyPayment "secret123" gwGood "POST" reqWrongSig).calls = [.fetchOrder "order_1"] := by
  refine ⟨by decide, by decide, by decide⟩

/-! ## Claim C8 -/

/-- C8 counterexample: the claim says every non-POST request to these routes
receives 405. An OPTIONS request (which is not POST) to the api create-order
handler receives 200, the CORS preflight response. -/
theorem C8_claim_counterexample :
    (apiCreateOrder gwGood 0 "key_test" "OPTIONS" (.int 5) none none).status = 200 ∧
    (apiCreateOrder gwGood 0 "key_test" "OPTIONS" (.int 5) none none).status ≠ 405 := by
  constructor
  · decide
  · decide

/-! ## Shared helper lemmas -/

/-- timingSafeEqual reports true only on equal byte lists. -/
theorem timingSafeEqual_ok_true {a b : List Nat}
    (h : timingSafeEqual a b = Except.ok true) : a = b := by
  unfold timingSafeEqual at h
  split at h
  · simpa using h
  · cases h

/-- Every nibble renders to a lowercase hexadecimal character. -/
theorem hexDigitChar_lower (n : Nat) : isLowerHexChar (hexDigitChar n) = true := by
  unfold hexDigitChar
  split <;> decide

/-- Hex rendering doubles the byte count. -/
theorem toHex_length (bs : List Nat) : (toHex bs).length = 2 * bs.length := by
  show (bs.foldr (fun b acc => byteHex b ++ acc) []).length = 2 * bs.length
  induction bs with
  | nil => rfl
  | cons b t ih =>
      rw [List.foldr_cons, List.length_append, ih, show (byteHex b).length = 2 from rfl,
        List.length_cons]
      omega

/-- Every character of a hex rendering is a lowercase hexadecimal digit. -/
theorem toHex_all_lower (bs : List Nat) :
    ((toHex bs).data.all isLowerHexChar) = true := by
  show ((bs.foldr (fun b acc => byteHex b ++ acc) []).all isLowerHexChar) = true
  induction bs with
  | nil => rfl
  | cons b t ih =>
      rw [List.foldr_cons, List.all_append, ih]
      simp [byteHex, hexDigitChar_lower]

/-- A SHA-256 digest is 32 bytes. -/
theorem sha256_length (m : List Nat) : (sha256 m).length = 32 := by
  unfold sha256 be32
  simp

/-- An HMAC-SHA256 tag is 32 bytes. -/
theorem hmacSha256_length (k m : List Nat) : (hmacSha256 k m).length = 32 := by
  unfold hmacSha256
  exact sha256_length _

/-! ## Claim C1 -/

/-- C1 counterexample: the claim says every successful verification requires
the fetched payment amount to equal the fetched order amount. The Express
verify-payment handler never fetches the order: at a gateway state whose
captured payment amount (50) differs from the order amount (100), it still
answers 200 for a correctly signed request. -/
theorem C1_claim_counterexample :
    (serverVerifyPayment "secret123" gwMismatch reqGood).status = 200 ∧
    gwMismatch.orders "order_1" = Except.ok orderFix ∧
    gwMismatch.payments "pay_1" = Except.ok payMismatch ∧
    payMismatch.amount ≠ orderFix.amount := by
  refine ⟨by decide, by simp [gwMismatch], by simp [gwMismatch], by decide⟩

/-- C1 amended: the api verify-payment handler answers 200 only when the
order fetch and payment fetch both succeeded, the supplied signature equals
the recomputed HMAC signature (as the byte buffers the code compares), the
payment status is captured, and the payment amount equals the order amount.
The Express handler answers 200 only under the signature and captured-status
conditions: it performs no amount reconciliation. -/
theorem C1_amended_holds (secret : String) (gw : Gateway) (req : VerifyRequest) :
    ((apiVerifyPayment secret gw "POST" req).status = 200 →
      ∃ o p, gw.orders (req.razorpay_order_id.getD "") = Except.ok o ∧
        gw.payments (req.razorpay_payment_id.getD "") = Except.ok p ∧
        utf8Bytes (req.razorpay_signature.getD "") =
          utf8Bytes (generatedSignature secret (req.razorpay_order_id.getD "")
            (req.razorpay_payment_id.getD "")) ∧
        p.status = "captured" ∧ p.amount = o.amount) ∧
    ((serverVerifyPayment secret gw req).status = 200 →
      ∃ p, gw.payments (req.razorpay_payment_id.getD "") = Except.ok p ∧
        utf8Bytes (req.razorpay_signature.getD "") =
          utf8Bytes (generatedSignature secret (req.razorpay_order_id.getD "")
            (req.razorpay_payment_id.getD "")) ∧
        p.status = "captured") := by
  constructor
  · intro h
    unfold apiVerifyPayment at h
    rw [if_neg (by decide), if_neg (by decide)] at h
    split at h
    · simp at h
    · split at h
      · simp at h
      · split at h
        · simp at h
        · split at h
          · simp at h
          · dsimp only at h
            split at h
            · simp at h
            · rename_i orderDetails horder
              split at h
              · simp at h
              · rename_i isValid hts
                split at h
                · rename_i hv
                  split at h
                  · simp at h
                  · rename_i p hpay
                    split at h
                    · simp at h
                    · rename_i hst
                      split at h
                      · simp at h
                      · rename_i ham
                        refine ⟨_, _, horder, hpay, ?_, not_ne_iff.mp hst, not_ne_iff.mp ham⟩
                        exact (timingSafeEqual_ok_true (hv ▸ hts)).symm
                · simp at h
  · intro h
    unfold serverVerifyPayment at h
    split at h
    · simp at h
    · dsimp only at h
      split at h
      · simp at h
      · rename_i isValid hts
        split at h
        · rename_i hv
          split at h
          · simp at h
          · rename_i p hpay
            split at h
            · simp at h
            · rename_i hst
              refine ⟨_, hpay, ?_, not_ne_iff.mp hst⟩
              exact (timingSafeEqual_ok_true (hv ▸ hts)).symm
        · simp at h

/-- C1 amended witness: the amended property instantiated at a concrete
successful run against the fixture gateway. -/
theorem C1_amended_witness :
    ∃ o p, gwGood.orders "order_1" = Except.ok o ∧
      gwGood.payments "pay_1" = Except.ok p ∧
      utf8Bytes sigOK = utf8Bytes (generatedSignature "secret123" "order_1" "pay_1") ∧
      p.status = "captured" ∧ p.amount = o.amount := by
  have h := (C1_amended_holds "secret123" gwGood reqGood).1 (by decide)
  simpa [reqGood, sigOK] using h

/-! ## Claim C4 -/

/-- C4 amended: with all three fields present, the api handler evaluates the
order fetch before the signature comparison, so an attempt whose signature
comparison fails is rejected with exactly one gateway call already issued
(the order fetch) and no payment fetch; the Express handler rejects the same
attempt with no gateway call at all. -/
theorem C4_amended_holds (secret : String) (gw : Gateway) (oid pid sig : String) (o : Order)
    (hoid : oid.isEmpty = false) (hpid : pid.isEmpty = false) (hsig : sig.isEmpty = false)
    (horder : gw.orders oid = Except.ok o)
    (hcmp : timingSafeEqual (utf8Bytes (generatedSignature secret oid pid)) (utf8Bytes sig) =
      Except.ok false) :
    apiVerifyPayment secret gw "POST" ⟨some oid, some pid, some sig, none⟩ =
      ⟨400, .invalidSignatureDebug o.id o.amount o.status (oid ++ "|" ++ pid)
        (generatedSignature secret oid pid) sig, [.fetchOrder oid]⟩ ∧
    serverVerifyPayment secret gw ⟨some oid, some pid, some sig, none⟩ =
      ⟨400, .invalidSignature, []⟩ := by
  constructor
  · unfold apiVerifyPayment
    rw [if_neg (by decide), if_neg (by decide)]
    simp [strTruthy, hoid, hpid, hsig, horder, hcmp]
  · unfold serverVerifyPayment
    simp [strTruthy, hoid, hpid, hsig, hcmp]

/-- C4 amended witness: the amended property at the concrete wrong-signature
input against the fixture gateway. -/
theorem C4_amended_witness :
    apiVerifyPayment "secret123" gwGood "POST" ⟨some "order_1", some "pay_1", some sigZeros, none⟩ =
      ⟨400, .invalidSignatureDebug "order_1" 100 "created" "order_1|pay_1"
        (generatedSignature "secret123" "order_1" "pay_1") sigZeros, [.fetchOrder "order_1"]⟩ ∧
    serverVerifyPayment "secret123" gwGood ⟨some "order_1", some "pay_1", some sigZeros, none⟩ =
      ⟨400, .invalidSignature, []⟩ := by
  have h := C4_amended_holds "secret123" gwGood "order_1" "pay_1" sigZeros orderFix
    (by decide) (by decide) (by decide) (by decide) (by decide)
  simpa [orderFix] using h

/-! ## Claim C5 -/

/-- C5: for a fixed secret and all order and payment ids, the expected
signature both handlers compute is the HMAC-SHA256 digest, rendered as a
lowercase hexadecimal string of 64 characters, of the exact pipe-delimited
concatenation of the two ids, and recomputing it on the same inputs yields
an identical result. -/
theorem C5_signature_scheme (secret orderId paymentId : String) :
    generatedSignature secret orderId paymentId =
      toHex (hmacSha256 (utf8Bytes secret) (utf8Bytes (orderId ++ "|" ++ paymentId))) ∧
    generatedSignature secret orderId paymentId = generatedSignature secret orderId paymentId ∧
    (generatedSignature secret orderId paymentId).length = 64 ∧
    ((generatedSignature secret orderId paymentId).data.all isLowerHexChar) = true := by
  refine ⟨rfl, rfl, ?_, toHex_all_lower _⟩
  show (toHex (hmacSha256 (utf8Bytes secret) (utf8Bytes (orderId ++ "|" ++ paymentId)))).length = 64
  rw [toHex_length, hmacSha256_length]

/-! ## Claim C6 -/

/-- C6: an order-creation request whose amount is absent, non-numeric, or an
integer below 1 (including 0 and negatives) fails with the invalid-amount
rejection in both create-order handlers, and the gateway-call list of the run
is empty: no external call is issued. -/
theorem C6_invalid_amount (gw : Gateway) (now : Nat) (keyId : String)
    (currency receipt : Option String) (amt : JsNum)
    (h : amt = .undef ∨ amt = .nan ∨ ∃ i : Int, amt = .int i ∧ i < 1) :
    serverCreateOrder gw now amt currency = ⟨400, .invalidAmount, []⟩ ∧
    apiCreateOrder gw now keyId "POST" amt currency receipt = ⟨400, .invalidAmount, []⟩ := by
  have hcond : (!(jsTruthy amt) || jsLtOne amt) = true := by
    rcases h with rfl | rfl | ⟨i, rfl, hi⟩
    · rfl
    · rfl
    · by_cases h0 : i = 0
      · subst h0; rfl
      · simp [jsTruthy, jsLtOne, h0, hi]
  constructor
  · unfold serverCreateOrder
    rw [if_pos hcond]
  · unfold apiCreateOrder
    rw [if_neg (by decide), if_neg (by decide), if_pos hcond]

/-- C6 witness: the rejection at the concrete amount 0 against the fixture
gateway. -/
theorem C6_invalid_amount_witness :
    serverCreateOrder gwGood 17 (.int 0) none = ⟨400, .invalidAmount, []⟩ ∧
    apiCreateOrder gwGood 17 "key_test" "POST" (.int 0) none none =
      ⟨400, .invalidAmount, []⟩ :=
  C6_invalid_amount gwGood 17 "key_test" none none (.int 0)
    (Or.inr (Or.inr ⟨0, rfl, by decide⟩))

/-! ## Claim C7 -/

/-- C7 counterexample: the claim says the submitted amount equals a * 100
exactly for every valid integer a of at least 1. At a = 2^53 - 1 (a
representable integer-valued double that passes validation) the double
product rounds: the handler submits 900719925474099072, while the exact
integer product is 900719925474099100. -/
theorem C7_claim_counterexample :
    (serverCreateOrder gwGood 17 (.int 9007199254740991) none).calls =
      [.createOrder (.int 900719925474099072) "INR" ("order_rcpt_" ++ toString 17) 1] ∧
    (900719925474099072 : Int) ≠ 9007199254740991 * 100 := by
  refine ⟨by decide, by decide⟩

/-- C7 amended: for every integer amount of at least 1 major unit whose
hundredfold stays below 2^53 (the range where doubles are exact), both
create-order handlers issue exactly one gateway call, and the amount it
submits is exactly the integer 100 times the requested amount, with
auto-capture enabled and the derived (or caller-supplied, in the api
handler) receipt; above that range the submitted amount is the exact product
rounded to the nearest double. -/
theorem C7_amended_holds (gw : Gateway) (now : Nat) (keyId : String)
    (currency receipt : Option String) (a : Int) (h : 1 ≤ a)
    (h2 : a * 100 < 9007199254740992) :
    (serverCreateOrder gw now (.int a) currency).calls =
      [.createOrder (.int (a * 100)) (currency.getD "INR")
        ("order_rcpt_" ++ toString now) 1] ∧
    (apiCreateOrder gw now keyId "POST" (.int a) currency receipt).calls =
      [.createOrder (.int (a * 100)) (currency.getD "INR")
        (if strTruthy receipt then receipt.getD "" else "order_rcpt_" ++ toString now) 1] := by
  have hcond : (!(jsTruthy (JsNum.int a)) || jsLtOne (JsNum.int a)) = false := by
    have ha0 : a ≠ 0 := by omega
    have ha1 : ¬ a < 1 := by omega
    simp [jsTruthy, jsLtOne, ha0, ha1]
  have hpos : ¬ a < 0 := by omega
  have hlt : a.natAbs * 100 < 9007199254740992 := by omega
  have hround : roundDouble (a.natAbs * 100) = a.natAbs * 100 := by
    unfold roundDouble
    rw [if_pos hlt]
  have hcast : ((a.natAbs * 100 : Nat) : Int) = a * 100 := by omega
  constructor
  · unfold serverCreateOrder
    rw [if_neg (by simp [hcond])]
    dsimp only [jsMul100]
    rw [if_neg hpos, hround, hcast]
    split <;> rfl
  · unfold apiCreateOrder
    rw [if_neg (by decide), if_neg (by decide), if_neg (by simp [hcond])]
    dsimp only [jsMul100]
    rw [if_neg hpos, hround, hcast]
    split <;> rfl

/-- C7 amended witness: at amount 5 the submitted gateway amount is exactly
500. -/
theorem C7_amended_witness :
    (serverCreateOrder gwGood 17 (.int 5) none).calls =
      [.createOrder (.int 500) "INR" ("order_rcpt_" ++ toString 17) 1] ∧
    (apiCreateOrder gwGood 17 "key_test" "POST" (.int 5) none none).calls =
      [.createOrder (.int 500) "INR" ("order_rcpt_" ++ toString 17) 1] := by
  have h := C7_amended_holds gwGood 17 "key_test" none none 5 (by decide) (by decide)
  simpa using h

/-! ## Claim C8 -/

/-- C8 amended: in the api handlers, an OPTIONS request receives 200 (the
CORS preflight response) and any other non-POST method receives 405; in the
Express app, the cors middleware answers every OPTIONS request 204 on every
path before routing, any other non-POST request to the create-order or
verify-payment path falls through to the catch-all and receives 404, and a
request to an unknown path receives 404 for every non-OPTIONS method. -/
theorem C8_amended_holds (secret keyId : String) (gw : Gateway) (now : Nat)
    (amount : JsNum) (currency receipt : Option String) (vreq : VerifyRequest)
    (m : String) (hm : m ≠ "POST") (hopt : m ≠ "OPTIONS") :
    (apiCreateOrder gw now keyId m amount currency receipt).status = 405 ∧
    (apiVerifyPayment secret gw m vreq).status = 405 ∧
    (apiCreateOrder gw now keyId "OPTIONS" amount currency receipt).status = 200 ∧
    (apiVerifyPayment secret gw "OPTIONS" vreq).status = 200 ∧
    (∀ path, (serverApp secret gw now "OPTIONS" path amount currency vreq).status = 204) ∧
    (serverApp secret gw now m "/api/create-order" amount currency vreq).status = 404 ∧
    (serverApp secret gw now m "/api/verify-payment" amount currency vreq).status = 404 ∧
    (∀ mth path, mth ≠ "OPTIONS" → path ≠ "/health" → path ≠ "/api/create-order" →
      path ≠ "/api/verify-payment" →
      (serverApp secret gw now mth path amount currency vreq).status = 404) := by
  refine ⟨?_, ?_, ?_, ?_, ?_, ?_, ?_, ?_⟩
  · unfold apiCreateOrder
    rw [if_neg hopt, if_pos hm]
  · unfold apiVerifyPayment
    rw [if_neg hopt, if_pos hm]
  · unfold apiCreateOrder
    rw [if_pos rfl]
  · unfold apiVerifyPayment
    rw [if_pos rfl]
  · intro path
    unfold serverApp
    rw [if_pos rfl]
  · unfold serverApp
    rw [if_neg hopt, if_neg (by simp), if_neg (by simp [hm]), if_neg (by simp)]
  · unfold serverApp
    rw [if_neg hopt, if_neg (by simp), if_neg (by simp), if_neg (by simp [hm])]
  · intro mth path h0 h1 h2 h3
    unfold serverApp
    rw [if_neg h0, if_neg (by simp [h1]), if_neg (by simp [h2]), if_neg (by simp [h3])]

/-- C8 amended witness: a GET request to the api create-order handler is
answered 405, OPTIONS preflights are answered 200 by the api handlers and
204 by the Express app, GET on the Express routes and a POST to an unknown
path are answered 404. -/
theorem C8_amended_witness :
    (apiCreateOrder gwGood 17 "key_test" "GET" (.int 5) none none).status = 405 ∧
    (apiVerifyPayment "secret123" gwGood "GET" reqGood).status = 405 ∧
    (apiCreateOrder gwGood 17 "key_test" "OPTIONS" (.int 5) none none).status = 200 ∧
    (apiVerifyPayment "secret123" gwGood "OPTIONS" reqGood).status = 200 ∧
    (serverApp "secret123" gwGood 17 "OPTIONS" "/api/create-order" (.int 5) none reqGood).status = 204 ∧
    (serverApp "secret123" gwGood 17 "GET" "/api/create-order" (.int 5) none reqGood).status = 404 ∧
    (serverApp "secret123" gwGood 17 "GET" "/api/verify-payment" (.int 5) none reqGood).status = 404 ∧
    (serverApp "secret123" gwGood 17 "POST" "/unknown" (.int 5) none reqGood).status = 404 := by
  have h := C8_amended_holds "secret123" "key_test" gwGood 17 (.int 5) none none reqGood
    "GET" (by decide) (by decide)
  exact ⟨h.1, h.2.1, h.2.2.1, h.2.2.2.1, h.2.2.2.2.1 "/api/create-order",
    h.2.2.2.2.2.1, h.2.2.2.2.2.2.1,
    h.2.2.2.2.2.2.2 "POST" "/unknown" (by decide) (by decide) (by decide) (by decide)⟩

/-! ## Claim C9 -/

/-- C9: a request body carrying a truthy checkout error field is answered
400 "Payment failed" echoing the error details, before any field-presence
check, signature computation, or gateway fetch: the response is produced with
an empty gateway-call list, for every gateway state and every value of the
identifier and signature fields. -/
theorem C9_error_short_circuit (secret : String) (gw : Gateway) (req : VerifyRequest)
    (d : String) (h : req.error = some d) :
    apiVerifyPayment secret gw "POST" req = ⟨400, .paymentFailed d, []⟩ := by
  unfold apiVerifyPayment
  simp [h]

/-- C9 witness: the short-circuit at a concrete request that also carries
all three identifiers and the valid signature for them. -/
theorem C9_error_short_circuit_witness :
    apiVerifyPayment "secret123" gwGood "POST" reqWithError =
      ⟨400, .paymentFailed "payment cancelled", []⟩ ∧
    reqWithError.razorpay_signature = some (generatedSignature "secret123" "order_1" "pay_1") := by
  refine ⟨C9_error_short_circuit "secret123" gwGood reqWithError "payment cancelled" rfl, ?_⟩
  decide

/-! ## Claim C10 -/

/-- C10: every run of either verify-payment handler, on every method, every
request and every gateway state, issues only read calls (order fetch,
payment fetch) against the gateway; it never issues a record-creating call.
The handlers are pure functions of (secret, gateway, request), so no local
state is read or mutated either. -/
theorem C10_read_only (secret : String) (gw : Gateway) (method : String)
    (req : VerifyRequest) :
    ((apiVerifyPayment secret gw method req).calls.all GatewayCall.isRead) = true ∧
    ((serverVerifyPayment secret gw req).calls.all GatewayCall.isRead) = true := by
  constructor
  · unfold apiVerifyPayment
    repeat first | rfl | split | dsimp only
  · unfold serverVerifyPayment
    repeat first | rfl | split | dsimp only
